import Mathlib

/-!
Shallow embedding of the two Bird 4480A wattmeter logging scripts
(`bird_4480_wattmeter_datalogging.py`, the GUI monitor, and
`ex01_bird4480a_log_data_to_csv.py`, the batch CSV logger).

Python floats that reach the numeric helpers are exact rationals, so parsed
numbers are modelled as `ℚ`; `float(x)` applied to an arbitrary argument is
modelled as an `Option ℚ` input (`none` means the conversion raises, and the
surrounding `try`/`except` decides what happens then).  `math.log10` is the
exact real logarithm `Real.logb 10`.  Values returned by the helpers are
modelled by `PyRet`, which distinguishes literal strings, `:.2f`-formatted
strings (carrying the numeric value being formatted) and raw float returns.
-/

namespace Wattmeters

/-- A value returned by one of the Python conversion helpers: a literal
string (such as the sentinel `N/A` or `0`), a number formatted with the
Python format spec `:.2f` (the constructor records the real value whose
two-decimal rendering is returned), or a raw float (the batch script's
`9.999e+37` sentinel). -/
inductive PyRet where
  | str (s : String)
  | fmt (x : ℝ)
  | flt (q : ℚ)

/-- PyRet.isFlt is true exactly on raw float returns. -/
def PyRet.isFlt : PyRet → Bool
  | .flt _ => true
  | _ => false

/-- The numeric content of a Python `f"{x:.2f}"` string: `x` rounded to the
nearest hundredth.  (Two reals format to the same two-decimal string exactly
when they round to the same hundredth, so `PyRet.fmt (pyFormat2 x)` faithfully
stands for the string the script returns.) -/
noncomputable def pyFormat2 (x : ℝ) : ℝ := (round (x * 100) : ℝ) / 100

/-- Python `round(x, 2)` on a parsed float, modelled as rounding the exact
rational to the nearest hundredth. -/
def pyRound2 (q : ℚ) : ℚ := (round (q * 100) : ℤ) / 100

/-- An unguarded numeric conversion `float(...)`/`int(...)` of a query
response: if the text does not parse the exception propagates
(`Except.error`), otherwise the parsed value is produced. -/
def pyNum {α : Type} : Option α → Except Unit α
  | none => .error ()
  | some a => .ok a

/-- Python float modulo `a % b` for a positive modulus `b`:
`a - b * floor(a / b)`. -/
def pymod (a b : ℚ) : ℚ := a - b * ⌊a / b⌋

namespace Gui

/-- `ms_to_hhmmss` from the GUI script: `seconds = ms / 1000` (true
division), then `hours = int(seconds // 3600)`,
`minutes = int((seconds % 3600) // 60)`, `seconds = int(seconds % 60)`.
Each `int(...)` is applied to a non-negative (or already integral) value, so
it coincides with the floor.  The result models the triple rendered as
`f"{hours:02d}:{minutes:02d}:{seconds:02d}"`. -/
def ms_to_hhmmss (ms : ℤ) : ℤ × ℤ × ℤ :=
  let seconds : ℚ := (ms : ℚ) / 1000
  let hours : ℤ := ⌊seconds / 3600⌋
  let minutes : ℤ := ⌊pymod seconds 3600 / 60⌋
  let secs : ℤ := ⌊pymod seconds 60⌋
  (hours, minutes, secs)

/-- `watts_to_dbm` from the GUI script: converts the argument with
`float(...)` inside `try`, returns the string `N/A` for a failed conversion
or a non-positive value, and otherwise the string `f"{10*log10(w*1000):.2f}"`. -/
noncomputable def watts_to_dbm : Option ℚ → PyRet
  | none => .str "N/A"
  | some watts =>
      if watts ≤ 0 then .str "N/A"
      else .fmt (pyFormat2 (10 * Real.logb 10 ((watts : ℝ) * 1000)))

/-- `vswr_to_return_loss` from the GUI script: string `N/A` for a failed
conversion, string `0` for VSWR ≤ 1, otherwise the string
`f"{-20*log10((v-1)/(v+1)):.2f}"`. -/
noncomputable def vswr_to_return_loss : Option ℚ → PyRet
  | none => .str "N/A"
  | some v =>
      if v ≤ 1 then .str "0"
      else .fmt (pyFormat2 (-20 * Real.logb 10 (((v : ℝ) - 1) / ((v : ℝ) + 1))))

/-- `band_selection` from the GUI script: band 1 and 0 map to the fixed
labels; any other integer falls through both branches, so Python returns
`None`, modelled as `Option.none`.  (The `try`/`except` around the integer
comparisons can never fire.) -/
def band_selection (band : ℤ) : Option String :=
  if band = 1 then some "High Band 25 to 1000 MHz"
  else if band = 0 then some "Low Band 2 to 30 MHz"
  else none

/-- The raw instrument responses consumed by one call of `update_readings`,
each already stripped and handed to `int(...)`/`float(...)`; `none` means the
response text does not parse as a number, so the conversion raises. -/
structure Responses where
  systime1 : Option ℤ
  forw : Option ℚ
  refl : Option ℚ
  vswr : Option ℚ
  temp : Option ℚ
  systime2 : Option ℤ
  band : Option ℤ

/-- One CSV data row (equally, one GUI refresh) written by
`update_readings`. -/
structure Row where
  measBand : Option String
  forwardPower : ℚ
  reflectedPower : ℚ
  forwardPowerDbm : PyRet
  reflectedPowerDbm : PyRet
  vswr : ℚ
  returnLoss : PyRet
  temp : ℚ
  measCount : ℕ
  testTime : ℤ
  systemUpTime : ℤ × ℤ × ℤ

/-- The body of the GUI script's `update_readings` callback for measurement
count `i`, performing the numeric conversions in source order.  The
conversions of the raw query responses are not inside any `try`, so a parse
failure raises out of the callback (`Except.error`); only then do the guarded
helpers run on the already-parsed floats. -/
noncomputable def update_readings (i : ℕ) (r : Responses) : Except Unit Row := do
  let SystemTime_ms ← pyNum r.systime1
  let system_time := ms_to_hhmmss SystemTime_ms
  let forward_power := pyRound2 (← pyNum r.forw)
  let reflected_power := pyRound2 (← pyNum r.refl)
  let vswr := pyRound2 (← pyNum r.vswr)
  let temp := pyRound2 (← pyNum r.temp)
  let TestTime_ms := (← pyNum r.systime2) - SystemTime_ms
  let meas_band ← pyNum r.band
  pure {
    measBand := band_selection meas_band
    forwardPower := forward_power
    reflectedPower := reflected_power
    forwardPowerDbm := watts_to_dbm (some forward_power)
    reflectedPowerDbm := watts_to_dbm (some reflected_power)
    vswr := vswr
    returnLoss := vswr_to_return_loss (some vswr)
    temp := temp
    measCount := i
    testTime := TestTime_ms
    systemUpTime := system_time }

/-- The GUI polling chain: each tick runs `update_readings` on the next
batch of responses; on success it appends exactly one row and re-arms the
timer, and on an uncaught exception the callback dies and no further tick is
scheduled. -/
noncomputable def run_update_readings : ℕ → List Responses → List Row
  | _, [] => []
  | i, r :: rest =>
    match update_readings (i + 1) r with
    | .error _ => []
    | .ok row => row :: run_update_readings (i + 1) rest

/-- The number of polling iterations of the GUI script that complete
successfully (the ticks before the first uncaught conversion failure). -/
noncomputable def successful_iterations : ℕ → List Responses → ℕ
  | _, [] => 0
  | i, r :: rest =>
    match update_readings (i + 1) r with
    | .error _ => 0
    | .ok _ => 1 + successful_iterations (i + 1) rest

/-- A response batch whose forward-power text does not parse as a number
(all other responses are fine). -/
def badResponses : Responses :=
  { systime1 := some 0
    forw := none
    refl := some 1
    vswr := some 1
    temp := some 25
    systime2 := some 0
    band := some 0 }

end Gui

namespace Batch

/-- The sentinel float `9.999e+37` returned by the batch script's
`vswr_to_return_loss` for an error condition. -/
def sentinel : ℚ := 9.999e37

/-- `vswr_to_return_loss` from the batch script: the raw float `9.999e+37`
for a failed conversion or VSWR ≤ 1, otherwise the string
`f"{-20*log10((v-1)/(v+1)):.2f}"` (a string, despite the declared `float`
return type). -/
noncomputable def vswr_to_return_loss : Option ℚ → PyRet
  | none => .flt sentinel
  | some v =>
      if v ≤ 1 then .flt sentinel
      else .fmt (pyFormat2 (-20 * Real.logb 10 (((v : ℝ) - 1) / ((v : ℝ) + 1))))

/-- The raw instrument responses consumed by one iteration of the batch
script's while loop; `none` means the stripped response text does not parse
as a float, so the unguarded `float(...)` raises. -/
structure Responses where
  forw : Option ℚ
  refl : Option ℚ
  vswr : Option ℚ
  temp : Option ℚ

/-- One CSV data row written by the batch script's loop. -/
structure Row where
  time : ℚ
  forwardPower : ℚ
  reflectedPower : ℚ
  vswr : ℚ
  returnLoss : PyRet
  temp : ℚ

/-- The measurement block at the top of the batch loop body, performing the
four unguarded `round(float(query(...).strip()), 2)` conversions and the
guarded return-loss computation, in source order.  A parse failure raises out
of the loop (`Except.error`). -/
noncomputable def measurements (r : Responses) : Except Unit (ℚ × ℚ × ℚ × PyRet × ℚ) := do
  let forward_power := pyRound2 (← pyNum r.forw)
  let reflected_power := pyRound2 (← pyNum r.refl)
  let vswr := pyRound2 (← pyNum r.vswr)
  let rl := vswr_to_return_loss (some vswr)
  let temp := pyRound2 (← pyNum r.temp)
  pure (forward_power, reflected_power, vswr, rl, temp)

/-- The batch script's `log_duration = 1800.0` (seconds). -/
def log_duration : ℚ := 1800

/-- The batch script's while loop.  `t1` is the start timestamp, `clock k`
the value `time.time()` returns inside iteration `k`, `resp k` that
iteration's instrument responses, and `elapsed_time` the loop variable
(initially `0.0`).  The loop head re-enters only while
`elapsed_time < log_duration`; the body fetches the readings (dying on a
parse failure), then reads the clock, updates `elapsed_time`, and appends
exactly one row.  `fuel` bounds the recursion so the model is total; the
theorems quantify over it. -/
noncomputable def run_log_loop (t1 : ℚ) (clock : ℕ → ℚ) (resp : ℕ → Responses) :
    ℕ → ℚ → ℕ → List Row
  | 0, _, _ => []
  | fuel + 1, elapsed_time, k =>
    if elapsed_time < log_duration then
      match measurements (resp k) with
      | .error _ => []
      | .ok (f, rf, v, rl, tp) =>
        let e := clock k - t1
        { time := e
          forwardPower := f
          reflectedPower := rf
          vswr := v
          returnLoss := rl
          temp := tp } :: run_log_loop t1 clock resp fuel e (k + 1)
    else []

/-- The number of iterations of the batch loop that run to completion
(mirrors `run_log_loop`, counting instead of collecting rows). -/
noncomputable def completed_iterations (t1 : ℚ) (clock : ℕ → ℚ) (resp : ℕ → Responses) :
    ℕ → ℚ → ℕ → ℕ
  | 0, _, _ => 0
  | fuel + 1, elapsed_time, k =>
    if elapsed_time < log_duration then
      match measurements (resp k) with
      | .error _ => 0
      | .ok _ => 1 + completed_iterations t1 clock resp fuel (clock k - t1) (k + 1)
    else 0

end Batch

end Wattmeters

namespace Wattmeters

/-- C1: the GUI's watts→dBm conversion returns the sentinel `N/A` when the
float conversion fails or yields a non-positive value, and otherwise the
two-decimal formatting of `10·log10(W·1000)`. -/
theorem C1_watts_to_dbm_spec :
    Gui.watts_to_dbm none = .str "N/A" ∧
    (∀ w : ℚ, w ≤ 0 → Gui.watts_to_dbm (some w) = .str "N/A") ∧
    (∀ w : ℚ, 0 < w →
      Gui.watts_to_dbm (some w) =
        .fmt (pyFormat2 (10 * Real.logb 10 ((w : ℝ) * 1000)))) := by
  refine ⟨rfl, fun w hw => ?_, fun w hw => ?_⟩
  · simp [Gui.watts_to_dbm, if_pos hw]
  · simp [Gui.watts_to_dbm, if_neg (not_le.mpr hw)]

/-- C1 witness: the theorem instantiated at the failing conversion, at
watts = 0 and at watts = 2. -/
theorem C1_watts_to_dbm_spec_witness :
    Gui.watts_to_dbm (some 0) = .str "N/A" ∧
    Gui.watts_to_dbm (some 2) =
      .fmt (pyFormat2 (10 * Real.logb 10 ((2 : ℝ) * 1000))) := by
  refine ⟨C1_watts_to_dbm_spec.2.1 0 le_rfl, ?_⟩
  have h := C1_watts_to_dbm_spec.2.2 2 (by norm_num)
  simpa using h

/-- C2: for VSWR ≤ 1 the GUI script returns the string `0` while the batch
script returns the float sentinel `9.999e+37`; for VSWR > 1 both return the
two-decimal formatting of `-20·log10((v-1)/(v+1))`. -/
theorem C2_return_loss_spec :
    (∀ v : ℚ, v ≤ 1 → Gui.vswr_to_return_loss (some v) = .str "0") ∧
    (∀ v : ℚ, v ≤ 1 → Batch.vswr_to_return_loss (some v) = .flt Batch.sentinel) ∧
    (∀ v : ℚ, 1 < v →
      Gui.vswr_to_return_loss (some v) =
        .fmt (pyFormat2 (-20 * Real.logb 10 (((v : ℝ) - 1) / ((v : ℝ) + 1)))) ∧
      Batch.vswr_to_return_loss (some v) =
        .fmt (pyFormat2 (-20 * Real.logb 10 (((v : ℝ) - 1) / ((v : ℝ) + 1))))) := by
  refine ⟨fun v hv => ?_, fun v hv => ?_, fun v hv => ⟨?_, ?_⟩⟩
  · simp [Gui.vswr_to_return_loss, if_pos hv]
  · simp [Batch.vswr_to_return_loss, if_pos hv]
  · simp [Gui.vswr_to_return_loss, if_neg (not_le.mpr hv)]
  · simp [Batch.vswr_to_return_loss, if_neg (not_le.mpr hv)]

/-- C2 witness: the theorem instantiated at VSWR = 1 and VSWR = 3. -/
theorem C2_return_loss_spec_witness :
    Gui.vswr_to_return_loss (some 1) = .str "0" ∧
    Batch.vswr_to_return_loss (some 1) = .flt Batch.sentinel ∧
    Gui.vswr_to_return_loss (some 3) =
      .fmt (pyFormat2 (-20 * Real.logb 10 (((3 : ℝ) - 1) / ((3 : ℝ) + 1)))) := by
  refine ⟨C2_return_loss_spec.1 1 le_rfl, C2_return_loss_spec.2.1 1 le_rfl, ?_⟩
  have h := (C2_return_loss_spec.2.2 3 (by norm_num)).1
  simpa using h

/-- C4: `band_selection` maps 1 to the high-band label and 0 to the low-band
label, and every other integer returns normally with no label. -/
theorem C4_band_selection_spec :
    Gui.band_selection 1 = some "High Band 25 to 1000 MHz" ∧
    Gui.band_selection 0 = some "Low Band 2 to 30 MHz" ∧
    (∀ b : ℤ, b ≠ 1 → b ≠ 0 → Gui.band_selection b = none) := by
  refine ⟨rfl, rfl, fun b h1 h0 => ?_⟩
  simp [Gui.band_selection, h1, h0]

/-- C4 witness: the theorem instantiated at band code 7. -/
theorem C4_band_selection_spec_witness : Gui.band_selection 7 = none :=
  C4_band_selection_spec.2.2 7 (by decide) (by decide)

/-- Floor of `(n + f) / K` for natural `n`, a fractional part `0 ≤ f < 1`
and a positive natural divisor `K` is the natural division `n / K`. -/
theorem floor_add_fract_div (n K : ℕ) (hK : 0 < K) (f : ℚ) (h0 : 0 ≤ f) (h1 : f < 1) :
    ⌊((n : ℚ) + f) / (K : ℚ)⌋ = (n / K : ℕ) := by
  have hKQ : (0 : ℚ) < K := by exact_mod_cast hK
  have hmul : ((n / K : ℕ) : ℚ) * K ≤ n := by exact_mod_cast Nat.div_mul_le_self n K
  have hlt : (n : ℚ) + 1 ≤ (((n / K : ℕ) : ℚ) + 1) * K := by
    exact_mod_cast Nat.succ_le_of_lt ((Nat.div_lt_iff_lt_mul hK).mp (Nat.lt_succ_self (n / K)))
  rw [Int.floor_eq_iff]
  refine ⟨?_, ?_⟩
  · have G : ((n / K : ℕ) : ℚ) ≤ ((n : ℚ) + f) / K := by
      rw [le_div_iff₀ hKQ]; linarith
    exact_mod_cast G
  · have G : ((n : ℚ) + f) / K < ((n / K : ℕ) : ℚ) + 1 := by
      rw [div_lt_iff₀ hKQ]; linarith
    exact_mod_cast G

/-- Python `%` of `(n + f)` by a positive natural modulus keeps the
fractional part and reduces the natural part. -/
theorem pymod_add_fract (n K : ℕ) (hK : 0 < K) (f : ℚ) (h0 : 0 ≤ f) (h1 : f < 1) :
    pymod ((n : ℚ) + f) (K : ℚ) = ((n % K : ℕ) : ℚ) + f := by
  unfold pymod
  rw [floor_add_fract_div n K hK f h0 h1]
  have hq : (K : ℚ) * ((n / K : ℕ) : ℚ) + ((n % K : ℕ) : ℚ) = (n : ℚ) := by
    exact_mod_cast Nat.div_add_mod n K
  have G : (n : ℚ) + f - (K : ℚ) * ((n / K : ℕ) : ℚ) = ((n % K : ℕ) : ℚ) + f := by linarith
  exact_mod_cast G

/-- Evaluation of `ms_to_hhmmss` on a non-negative number of milliseconds:
each component is the corresponding natural div/mod of the whole seconds. -/
theorem ms_to_hhmmss_natCast (ms : ℕ) :
    Gui.ms_to_hhmmss (ms : ℤ) =
      (((ms / 1000 / 3600 : ℕ) : ℤ),
       ((ms / 1000 % 3600 / 60 : ℕ) : ℤ),
       ((ms / 1000 % 60 : ℕ) : ℤ)) := by
  have hf0 : (0 : ℚ) ≤ ((ms % 1000 : ℕ) : ℚ) / 1000 := by positivity
  have hf1 : ((ms % 1000 : ℕ) : ℚ) / 1000 < 1 := by
    rw [div_lt_one (by norm_num)]
    exact_mod_cast Nat.mod_lt ms (by norm_num)
  have hsec : ((ms : ℤ) : ℚ) / 1000 = ((ms / 1000 : ℕ) : ℚ) + ((ms % 1000 : ℕ) : ℚ) / 1000 := by
    have h : (ms : ℚ) = 1000 * ((ms / 1000 : ℕ) : ℚ) + ((ms % 1000 : ℕ) : ℚ) := by
      exact_mod_cast (Nat.div_add_mod ms 1000).symm
    push_cast
    rw [h]
    ring
  have h3600 : ((3600 : ℕ) : ℚ) = (3600 : ℚ) := by norm_num
  have h60 : ((60 : ℕ) : ℚ) = (60 : ℚ) := by norm_num
  simp only [Gui.ms_to_hhmmss, hsec]
  refine Prod.ext ?_ (Prod.ext ?_ ?_)
  · rw [← h3600, floor_add_fract_div (ms / 1000) 3600 (by norm_num) _ hf0 hf1]
  · rw [← h3600, pymod_add_fract (ms / 1000) 3600 (by norm_num) _ hf0 hf1,
      ← h60, floor_add_fract_div (ms / 1000 % 3600) 60 (by norm_num) _ hf0 hf1]
  · rw [← h60, pymod_add_fract (ms / 1000) 60 (by norm_num) _ hf0 hf1]
    have hc : ((ms / 1000 % 60 : ℕ) : ℚ) = (((ms / 1000 % 60 : ℕ) : ℤ) : ℚ) := by norm_cast
    rw [hc, Int.floor_int_add]
    have : ⌊((ms % 1000 : ℕ) : ℚ) / 1000⌋ = 0 := by
      rw [Int.floor_eq_zero_iff]
      exact ⟨hf0, hf1⟩
    rw [this, add_zero]

/-- C9: for every non-negative integer count of milliseconds, the minutes
and seconds components of `ms_to_hhmmss` lie in `[0, 59]`, and
`hours*3600 + minutes*60 + seconds` equals the whole number of seconds
`⌊ms / 1000⌋`. -/
theorem C9_ms_to_hhmmss_spec (ms : ℕ) :
    0 ≤ (Gui.ms_to_hhmmss (ms : ℤ)).2.1 ∧ (Gui.ms_to_hhmmss (ms : ℤ)).2.1 ≤ 59 ∧
    0 ≤ (Gui.ms_to_hhmmss (ms : ℤ)).2.2 ∧ (Gui.ms_to_hhmmss (ms : ℤ)).2.2 ≤ 59 ∧
    (Gui.ms_to_hhmmss (ms : ℤ)).1 * 3600 + (Gui.ms_to_hhmmss (ms : ℤ)).2.1 * 60 +
        (Gui.ms_to_hhmmss (ms : ℤ)).2.2 = ((ms / 1000 : ℕ) : ℤ) := by
  rw [ms_to_hhmmss_natCast ms]
  dsimp only
  have h1 : ms / 1000 % 3600 / 60 ≤ 59 := by omega
  have h2 : ms / 1000 % 60 ≤ 59 := by omega
  have h3 : ms / 1000 / 3600 * 3600 + ms / 1000 % 3600 / 60 * 60 + ms / 1000 % 60
      = ms / 1000 := by omega
  refine ⟨by positivity, by exact_mod_cast h1, by positivity, by exact_mod_cast h2, ?_⟩
  exact_mod_cast h3

/-- Rounding to the nearest integer is monotone on the reals. -/
theorem round_mono_real {x y : ℝ} (h : x ≤ y) : round x ≤ round y := by
  rw [round_eq, round_eq]
  exact Int.floor_mono (by linarith)

/-- Two-decimal formatting is monotone: a larger value never renders as a
smaller two-decimal string value. -/
theorem pyFormat2_mono {x y : ℝ} (h : x ≤ y) : pyFormat2 x ≤ pyFormat2 y := by
  unfold pyFormat2
  have h1 : round (x * 100) ≤ round (y * 100) := round_mono_real (by linarith)
  have h2 : ((round (x * 100) : ℤ) : ℝ) ≤ ((round (y * 100) : ℤ) : ℝ) := by exact_mod_cast h1
  linarith

/-- C5: the watts→dBm conversion is monotone on positive inputs (the
formatted dBm value for the smaller wattage is at most the one for the
larger), and every non-positive input returns the error sentinel. -/
theorem C5_watts_to_dbm_monotone :
    (∀ w1 w2 : ℚ, 0 < w1 → w1 < w2 →
      ∃ x1 x2 : ℝ, Gui.watts_to_dbm (some w1) = .fmt x1 ∧
        Gui.watts_to_dbm (some w2) = .fmt x2 ∧ x1 ≤ x2) ∧
    (∀ w : ℚ, w ≤ 0 → Gui.watts_to_dbm (some w) = .str "N/A") := by
  constructor
  · intro w1 w2 h1 h12
    have h2 : (0 : ℚ) < w2 := lt_trans h1 h12
    have hw1 : (0 : ℝ) < (w1 : ℝ) := by exact_mod_cast h1
    have hw12 : (w1 : ℝ) ≤ (w2 : ℝ) := by exact_mod_cast le_of_lt h12
    refine ⟨pyFormat2 (10 * Real.logb 10 ((w1 : ℝ) * 1000)),
            pyFormat2 (10 * Real.logb 10 ((w2 : ℝ) * 1000)), ?_, ?_, ?_⟩
    · simp [Gui.watts_to_dbm, if_neg (not_le.mpr h1)]
    · simp [Gui.watts_to_dbm, if_neg (not_le.mpr h2)]
    · refine pyFormat2_mono (mul_le_mul_of_nonneg_left ?_ (by norm_num))
      exact Real.logb_le_logb_of_le (by norm_num) (by positivity) (by nlinarith)
  · intro w hw
    simp [Gui.watts_to_dbm, if_pos hw]

/-- C5 witness: the theorem instantiated at watts 1 < 2 and at watts 0. -/
theorem C5_watts_to_dbm_monotone_witness :
    (∃ x1 x2 : ℝ, Gui.watts_to_dbm (some 1) = .fmt x1 ∧
      Gui.watts_to_dbm (some 2) = .fmt x2 ∧ x1 ≤ x2) ∧
    Gui.watts_to_dbm (some 0) = .str "N/A" :=
  ⟨C5_watts_to_dbm_monotone.1 1 2 (by norm_num) (by norm_num),
   C5_watts_to_dbm_monotone.2 0 le_rfl⟩

/-- C6: the GUI return-loss helper returns the string 0 at VSWR 1 and the
batch helper returns its documented sentinel there; above 1 the two scripts
agree, and the return loss is monotonically decreasing: for 1 < v1 < v2 the
formatted value at v2 is at most the one at v1. -/
theorem C6_return_loss_decreasing :
    Gui.vswr_to_return_loss (some 1) = .str "0" ∧
    Batch.vswr_to_return_loss (some 1) = .flt Batch.sentinel ∧
    (∀ v : ℚ, 1 < v → Batch.vswr_to_return_loss (some v) = Gui.vswr_to_return_loss (some v)) ∧
    (∀ v1 v2 : ℚ, 1 < v1 → v1 < v2 →
      ∃ x1 x2 : ℝ, Gui.vswr_to_return_loss (some v1) = .fmt x1 ∧
        Gui.vswr_to_return_loss (some v2) = .fmt x2 ∧ x2 ≤ x1) := by
  refine ⟨rfl, rfl, fun v hv => ?_, fun v1 v2 h1 h12 => ?_⟩
  · simp [Gui.vswr_to_return_loss, Batch.vswr_to_return_loss, if_neg (not_le.mpr hv)]
  · have h2 : (1 : ℚ) < v2 := lt_trans h1 h12
    have ha : (1 : ℝ) < (v1 : ℝ) := by exact_mod_cast h1
    have hb : (v1 : ℝ) ≤ (v2 : ℝ) := by exact_mod_cast le_of_lt h12
    have ha1 : (0 : ℝ) < (v1 : ℝ) + 1 := by linarith
    have hb1 : (0 : ℝ) < (v2 : ℝ) + 1 := by linarith
    have hpos : (0 : ℝ) < ((v1 : ℝ) - 1) / ((v1 : ℝ) + 1) := div_pos (by linarith) ha1
    have hle : ((v1 : ℝ) - 1) / ((v1 : ℝ) + 1) ≤ ((v2 : ℝ) - 1) / ((v2 : ℝ) + 1) := by
      rw [div_le_div_iff₀ ha1 hb1]
      nlinarith
    have hlog : Real.logb 10 (((v1 : ℝ) - 1) / ((v1 : ℝ) + 1)) ≤
        Real.logb 10 (((v2 : ℝ) - 1) / ((v2 : ℝ) + 1)) :=
      Real.logb_le_logb_of_le (by norm_num) hpos hle
    refine ⟨pyFormat2 (-20 * Real.logb 10 (((v1 : ℝ) - 1) / ((v1 : ℝ) + 1))),
            pyFormat2 (-20 * Real.logb 10 (((v2 : ℝ) - 1) / ((v2 : ℝ) + 1))), ?_, ?_, ?_⟩
    · simp [Gui.vswr_to_return_loss, if_neg (not_le.mpr h1)]
    · simp [Gui.vswr_to_return_loss, if_neg (not_le.mpr h2)]
    · exact pyFormat2_mono (by linarith)

/-- C6 witness: the theorem instantiated at VSWR pair 2 < 4 and at VSWR 3
for the agreement of the two scripts. -/
theorem C6_return_loss_decreasing_witness :
    Batch.vswr_to_return_loss (some 3) = Gui.vswr_to_return_loss (some 3) ∧
    (∃ x1 x2 : ℝ, Gui.vswr_to_return_loss (some 2) = .fmt x1 ∧
      Gui.vswr_to_return_loss (some 4) = .fmt x2 ∧ x2 ≤ x1) :=
  ⟨C6_return_loss_decreasing.2.2.1 3 (by norm_num),
   C6_return_loss_decreasing.2.2.2 2 4 (by norm_num) (by norm_num)⟩

/-- C10: the batch return-loss helper is total in the model (it always
returns either a raw float or a formatted string, never propagating an
exception), returning the float `9.999e+37` for a failed conversion or an
input at most 1, and a two-decimal formatted string, not a float, for every
input above 1. -/
theorem C10_batch_return_loss_type_inconsistent :
    (∀ i : Option ℚ, (∃ q, Batch.vswr_to_return_loss i = .flt q) ∨
      (∃ x, Batch.vswr_to_return_loss i = .fmt x)) ∧
    Batch.vswr_to_return_loss none = .flt Batch.sentinel ∧
    Batch.sentinel = 9.999e37 ∧
    (∀ v : ℚ, v ≤ 1 → Batch.vswr_to_return_loss (some v) = .flt Batch.sentinel) ∧
    (∀ v : ℚ, 1 < v → (Batch.vswr_to_return_loss (some v)).isFlt = false ∧
      ∃ x, Batch.vswr_to_return_loss (some v) = .fmt x) := by
  refine ⟨fun i => ?_, rfl, rfl, fun v hv => ?_, fun v hv => ⟨?_, ?_⟩⟩
  · match i with
    | none => exact .inl ⟨Batch.sentinel, rfl⟩
    | some v =>
      by_cases hv : v ≤ 1
      · exact .inl ⟨Batch.sentinel, by simp [Batch.vswr_to_return_loss, if_pos hv]⟩
      · refine .inr ⟨pyFormat2 (-20 * Real.logb 10 (((v : ℝ) - 1) / ((v : ℝ) + 1))), ?_⟩
        simp [Batch.vswr_to_return_loss, if_neg hv]
  · simp [Batch.vswr_to_return_loss, if_pos hv]
  · simp [Batch.vswr_to_return_loss, if_neg (not_le.mpr hv), PyRet.isFlt]
  · refine ⟨pyFormat2 (-20 * Real.logb 10 (((v : ℝ) - 1) / ((v : ℝ) + 1))), ?_⟩
    simp [Batch.vswr_to_return_loss, if_neg (not_le.mpr hv)]

/-- C10 witness: the theorem instantiated at VSWR 1 and VSWR 2. -/
theorem C10_batch_return_loss_type_inconsistent_witness :
    Batch.vswr_to_return_loss (some 1) = .flt Batch.sentinel ∧
    (Batch.vswr_to_return_loss (some 2)).isFlt = false :=
  ⟨C10_batch_return_loss_type_inconsistent.2.2.2.1 1 le_rfl,
   (C10_batch_return_loss_type_inconsistent.2.2.2.2 2 (by norm_num)).1⟩

/-- A failed unguarded conversion propagates through the rest of the body. -/
theorem pyNum_none_bind {α β : Type} (f : α → Except Unit β) :
    (pyNum none >>= f) = .error () := rfl

/-- A successful unguarded conversion passes the parsed value on. -/
theorem pyNum_some_bind {α β : Type} (a : α) (f : α → Except Unit β) :
    (pyNum (some a) >>= f) = f a := rfl

/-- In the `Except` monad, `pure` is `Except.ok`. -/
theorem pure_eq_ok {α : Type} (a : α) : (pure a : Except Unit α) = .ok a := rfl

/-- C3 counterexample: a polling iteration whose forward-power response does
not parse as a number raises out of the loop body instead of being replaced
with a placeholder — `update_readings` propagates the exception. -/
theorem C3_counterexample_unparsable_forward_power :
    Gui.update_readings 1 Gui.badResponses = .error () := rfl

/-- C3 amended: the conversion failures inside the guarded helpers are
swallowed, but the direct `int(...)`/`float(...)` conversions of the query
responses in both loop bodies are unguarded — the iteration completes if and
only if every raw numeric conversion succeeds, and any failure raises out of
the loop body. -/
theorem C3_amended_unguarded_conversions :
    (∀ (i : ℕ) (r : Gui.Responses), (∃ row, Gui.update_readings i r = .ok row) ↔
      (r.systime1.isSome ∧ r.forw.isSome ∧ r.refl.isSome ∧ r.vswr.isSome ∧
        r.temp.isSome ∧ r.systime2.isSome ∧ r.band.isSome)) ∧
    (∀ r : Batch.Responses, (∃ out, Batch.measurements r = .ok out) ↔
      (r.forw.isSome ∧ r.refl.isSome ∧ r.vswr.isSome ∧ r.temp.isSome)) := by
  constructor
  · intro i r
    obtain ⟨s1, fw, rf, vs, tp, s2, bd⟩ := r
    cases s1 <;> cases fw <;> cases rf <;> cases vs <;> cases tp <;> cases s2 <;> cases bd <;>
      simp [Gui.update_readings, pyNum_none_bind, pyNum_some_bind, pure_eq_ok]
  · intro r
    obtain ⟨fw, rf, vs, tp⟩ := r
    cases fw <;> cases rf <;> cases vs <;> cases tp <;>
      simp [Batch.measurements, pyNum_none_bind, pyNum_some_bind, pure_eq_ok]

/-- C7: in both scripts every completed polling iteration appends exactly
one CSV data row, so the number of data rows equals the number of completed
iterations. -/
theorem C7_one_row_per_iteration :
    (∀ (i : ℕ) (rs : List Gui.Responses),
      (Gui.run_update_readings i rs).length = Gui.successful_iterations i rs) ∧
    (∀ (t1 : ℚ) (clock : ℕ → ℚ) (resp : ℕ → Batch.Responses) (fuel : ℕ) (elapsed : ℚ) (k : ℕ),
      (Batch.run_log_loop t1 clock resp fuel elapsed k).length =
        Batch.completed_iterations t1 clock resp fuel elapsed k) := by
  constructor
  · intro i rs
    induction rs generalizing i with
    | nil => rfl
    | cons r rest ih =>
      simp only [Gui.run_update_readings, Gui.successful_iterations]
      cases h : Gui.update_readings (i + 1) r with
      | error e => rfl
      | ok row => simp [ih, Nat.add_comm]
  · intro t1 clock resp fuel
    induction fuel with
    | zero => intro elapsed k; rfl
    | succ n ih =>
      intro elapsed k
      by_cases hc : elapsed < Batch.log_duration
      · cases h : Batch.measurements (resp k) with
        | error e => simp [Batch.run_log_loop, Batch.completed_iterations, hc, h]
        | ok out =>
          obtain ⟨f, rf, v, rl, tp⟩ := out
          simp [Batch.run_log_loop, Batch.completed_iterations, hc, h, ih, Nat.add_comm]
      · simp [Batch.run_log_loop, Batch.completed_iterations, hc]

/-- Once the loop variable has reached the logging duration, the batch loop
appends no further rows. -/
theorem run_log_loop_stops (t1 : ℚ) (clock : ℕ → ℚ) (resp : ℕ → Batch.Responses)
    (fuel : ℕ) (elapsed : ℚ) (k : ℕ) (h : Batch.log_duration ≤ elapsed) :
    Batch.run_log_loop t1 clock resp fuel elapsed k = [] := by
  cases fuel with
  | zero => rfl
  | succ n => simp [Batch.run_log_loop, not_lt.mpr h]

/-- Bound on the rows the batch loop can still append starting from
iteration `k`, once some clock reading at index `m` has passed the logging
deadline. -/
theorem run_log_loop_length_bound (t1 : ℚ) (clock : ℕ → ℚ) (resp : ℕ → Batch.Responses)
    (m : ℕ) (hmono : Monotone clock) (hm : t1 + Batch.log_duration ≤ clock m) :
    ∀ (fuel k : ℕ) (elapsed : ℚ),
      (Batch.run_log_loop t1 clock resp fuel elapsed k).length ≤ max 1 (m + 1 - k) := by
  intro fuel
  induction fuel with
  | zero => intro k elapsed; simp [Batch.run_log_loop]
  | succ n ih =>
    intro k elapsed
    by_cases hc : elapsed < Batch.log_duration
    · cases hmeas : Batch.measurements (resp k) with
      | error e => simp [Batch.run_log_loop, hc, hmeas]
      | ok out =>
        obtain ⟨f, rf, v, rl, tp⟩ := out
        simp only [Batch.run_log_loop, if_pos hc, hmeas, List.length_cons]
        by_cases hk : m ≤ k
        · have hstop : Batch.log_duration ≤ clock k - t1 := by
            have := hmono hk
            linarith
          rw [run_log_loop_stops t1 clock resp n (clock k - t1) (k + 1) hstop]
          simp
        · have h2 := ih (k + 1) (clock k - t1)
          omega
    · simp [Batch.run_log_loop, hc]

/-- C8: the batch logger's loop is bounded by the fixed wall-clock duration
`log_duration = 1800` seconds: a new iteration begins only while the loop
variable is strictly below 1800, and once the measured elapsed time reaches
the duration (some clock reading at index `m` is at least `t1 + 1800`, with
a monotone clock) at most `m + 1` rows are ever appended. -/
theorem C8_batch_loop_time_bounded :
    Batch.log_duration = 1800 ∧
    (∀ (t1 : ℚ) (clock : ℕ → ℚ) (resp : ℕ → Batch.Responses) (fuel : ℕ) (elapsed : ℚ) (k : ℕ),
      Batch.log_duration ≤ elapsed →
      Batch.run_log_loop t1 clock resp fuel elapsed k = []) ∧
    (∀ (t1 : ℚ) (clock : ℕ → ℚ) (resp : ℕ → Batch.Responses) (fuel m : ℕ),
      Monotone clock → t1 + Batch.log_duration ≤ clock m →
      (Batch.run_log_loop t1 clock resp fuel 0 0).length ≤ m + 1) := by
  refine ⟨rfl,
    fun t1 clock resp fuel elapsed k h => run_log_loop_stops t1 clock resp fuel elapsed k h,
    fun t1 clock resp fuel m hmono hm => ?_⟩
  have hb := run_log_loop_length_bound t1 clock resp m hmono hm fuel 0 0
  omega

/-- C8 witness: the theorem instantiated with a constant clock stuck past
the deadline, so at most one row is written. -/
theorem C8_batch_loop_time_bounded_witness :
    (Batch.run_log_loop 0 (fun _ => 2000) (fun _ => ⟨some 1, some 1, some 1, some 25⟩)
      5 0 0).length ≤ 0 + 1 :=
  C8_batch_loop_time_bounded.2.2 0 (fun _ => 2000) (fun _ => ⟨some 1, some 1, some 1, some 25⟩)
    5 0 monotone_const (by norm_num [Batch.log_duration])

end Wattmeters
